import Mathlib

/-!
Verification development for the startup-intelligence-agent backend.

The definitions below are a shallow embedding of the Python sources:
  backend/src/workflow/scheduler.py   (WorkflowScheduler)
  backend/src/api/server.py           (trigger_workflow, start_scheduler,
                                       get_briefing_by_date, workflow_lock)
  backend/src/database/db.py          (insert_news, insert_funding,
                                       insert_launches, insert_github_repositories,
                                       insert_github_signals, _validate_days)
  backend/src/analysis/agent.py       (analyze_recent_data, _parse_llm_response,
                                       _validate_analysis_results)
  backend/src/summarizer/agent.py     (create_briefing, _generate_summary,
                                       _generate_fallback_summary)
  backend/src/llm/client.py           (LLMClient.complete)
  backend/src/orchestrator/agent.py   (collect_all_data, store_news_articles,
                                       store_startup_signals, store_github_signals,
                                       run_full_workflow)

Machine time is modelled as natural-number seconds.  Python exceptions are
modelled with an explicit error type and `Except`.  External collaborators
(HTTP collectors, the text-completion provider, the relational engine at the
call boundary) are modelled as explicit behaviour parameters, so that the
theorems quantify over every behaviour of those collaborators.
-/

set_option autoImplicit false

namespace StartupIntel

/-- Python exception values that the embedded code can raise or catch. -/
inductive PyErr where
  | valueError (msg : String)
  | httpError (msg : String)
  | runtimeError (msg : String)
  | other (msg : String)
  deriving DecidableEq, Repr

/-- The result of `str(e)` on an exception value. -/
def PyErr.toStr : PyErr → String
  | .valueError m => m
  | .httpError m => m
  | .runtimeError m => m
  | .other m => m

/-- An HTTP response produced by a FastAPI handler: status code and detail. -/
structure HttpResp where
  status : Nat
  detail : String
  deriving DecidableEq, Repr

/-! ## Scheduler (workflow/scheduler.py) -/

/-- `ScheduleFrequency` from scheduler.py.  The server-side query regex
restricts the string to these four values before the enum lookup. -/
inductive Frequency where
  | hourly
  | daily
  | weekly
  | custom
  deriving DecidableEq, Repr

/-- The mutable fields of `WorkflowScheduler` (scheduler.py lines 30-38).
`scheduled_task` and the two callables are not data; times are seconds. -/
structure SchedulerState where
  isRunning : Bool
  enabled : Bool
  lastRun : Option Nat
  nextRun : Option Nat
  frequency : Option Frequency
  intervalSeconds : Option Nat
  deriving DecidableEq, Repr

/-- The state built by `WorkflowScheduler.__init__`. -/
def freshScheduler : SchedulerState :=
  { isRunning := false, enabled := false, lastRun := none, nextRun := none,
    frequency := none, intervalSeconds := none }

/-- `WorkflowScheduler._calculate_next_run` (scheduler.py lines 154-161).
Python tests `if not self.interval_seconds`, which is also true for 0.
`base_time` is `last_run` when set, otherwise the current time. -/
def calculateNextRun (now : Nat) (st : SchedulerState) : SchedulerState :=
  match st.intervalSeconds with
  | none => { st with nextRun := none }
  | some 0 => { st with nextRun := none }
  | some i => { st with nextRun := some (st.lastRun.getD now + i) }

/-- `WorkflowScheduler._run_workflow` (scheduler.py lines 139-152).
`last_run` is assigned `datetime.now()` at line 143, before the runner is
awaited; an exception from the runner is caught at line 150 and only logged,
so the state change is the same whether the runner succeeds or raises. -/
def runWorkflow (startTime : Nat) (_runnerOk : Bool) (st : SchedulerState) : SchedulerState :=
  { st with lastRun := some startTime }

/-- One scheduled execution as driven by `_scheduler_loop` (lines 122-126) or
by `trigger_now` (lines 178-185): run the workflow starting at `startTime`,
taking `duration` seconds, then recompute the next run at completion time. -/
def scheduledTick (st : SchedulerState) (startTime duration : Nat) (runnerOk : Bool) :
    SchedulerState :=
  calculateNextRun (startTime + duration) (runWorkflow startTime runnerOk st)

/-- Interval table of `WorkflowScheduler.start` (scheduler.py lines 62-73).
For CUSTOM, `if not interval_seconds` raises ValueError on None and on 0. -/
def frequencyInterval : Frequency → Option Nat → Except PyErr Nat
  | .hourly, _ => .ok 3600
  | .daily, _ => .ok 86400
  | .weekly, _ => .ok 604800
  | .custom, none => .error (.valueError "interval_seconds required for CUSTOM frequency")
  | .custom, some 0 => .error (.valueError "interval_seconds required for CUSTOM frequency")
  | .custom, some i => .ok i

/-- `WorkflowScheduler.start` (scheduler.py lines 40-87).  Returns the state
together with the exception, if one was raised.  Note that `frequency` and
`enabled` are assigned (lines 58-59) before the interval table runs, so a
ValueError from the table leaves those two fields already mutated.  The
`run_immediately` out-of-band task only spawns a run and changes no field. -/
def schedulerStart (st : SchedulerState) (now : Nat) (freq : Frequency)
    (intervalArg : Option Nat) : SchedulerState × Option PyErr :=
  if st.isRunning then (st, none)
  else
    let st1 := { st with frequency := some freq, enabled := true }
    match frequencyInterval freq intervalArg with
    | .error e => (st1, some e)
    | .ok i =>
        let st2 := { st1 with intervalSeconds := some i, isRunning := true }
        (calculateNextRun now st2, none)

/-! ## Workflow trigger and its lock (api/server.py) -/

/-- The module-level `workflow_status` dict (server.py line 37). -/
structure WorkflowStatus where
  running : Bool
  lastRun : Option String
  error : Option String
  deriving DecidableEq, Repr

/-- Outcome of the `POST /orchestrator/run` check-and-set. -/
inductive TriggerResp where
  | accepted
  | conflict
  deriving DecidableEq, Repr

/-- The critical section of `trigger_workflow` (server.py lines 231-239),
executed atomically under `workflow_lock`: if a workflow is marked running
the handler raises HTTPException 409, otherwise it marks the workflow
running, clears the error and replies with the started payload.  The
conflicting caller returns at once; it never waits for the running
workflow. -/
def triggerWorkflowCheckAndSet (ws : WorkflowStatus) : WorkflowStatus × TriggerResp :=
  if ws.running then (ws, .conflict)
  else ({ ws with running := true, error := none }, .accepted)

/-- `start_scheduler` (server.py lines 373-435).  The whole body sits in a
`try` whose only handler is `except Exception`, which re-raises everything
as HTTPException(500, str(e)).  fastapi.HTTPException is a subclass of
Exception, so the HTTPException(409) of line 388 and the HTTPException(400)
of line 395 are both swallowed and surface as status 500. -/
def startSchedulerHandler (schedOpt : Option SchedulerState) (now : Nat) (freq : Frequency)
    (intervalArg : Option Nat) : Option SchedulerState × HttpResp :=
  if (match schedOpt with | some st => st.isRunning | none => false) then
    (schedOpt, ⟨500, "409: Scheduler is already running"⟩)
  else if freq = .custom ∧ intervalArg = none then
    (schedOpt, ⟨500, "400: interval_seconds parameter is required when frequency=custom"⟩)
  else
    let st0 := schedOpt.getD freshScheduler
    match schedulerStart st0 now freq intervalArg with
    | (st1, some e) => (some st1, ⟨500, e.toStr⟩)
    | (st1, none) => (some st1, ⟨200, "started"⟩)

/-! ## Database inserts (database/db.py)

Each table is modelled by the view that the insert path inspects: for `news`
and `github_repositories` the list of stored dedup keys (`url` respectively
`full_name`, both NOT NULL UNIQUE); for `funding` and `launches` the list of
stored `link` values, nullable UNIQUE, where NULL never conflicts in SQLite;
for `github_signals`, which has no UNIQUE column, the stored rows
themselves.  `INSERT OR IGNORE` turns constraint violations (NOT NULL or
UNIQUE) into a skipped row with `rowcount = 0`; the plain `INSERT` used for
signals raises `sqlite3.IntegrityError` on a NOT NULL violation, which the
`except sqlite3.Error` arm catches, leaving that row uncounted. -/

/-- The fields of a news record that `insert_news` binds (db.py lines 230-242)
and that can affect the insert outcome via constraints. -/
structure NewsArticle where
  title : Option String
  url : Option String
  source : Option String
  timestamp : Option String
  deriving DecidableEq, Repr

/-- One iteration of the `insert_news` loop (db.py lines 228-247). -/
def insertNewsOne (tbl : List String) (a : NewsArticle) : List String × Nat :=
  match a.url with
  | none => (tbl, 0)
  | some u =>
      if a.title = none ∨ a.source = none ∨ a.timestamp = none then (tbl, 0)
      else if u ∈ tbl then (tbl, 0)
      else (tbl ++ [u], 1)

/-- `Database.insert_news` (db.py lines 222-250): iterate, count rows with
`rowcount > 0`. -/
def insert_news (tbl : List String) (articles : List NewsArticle) : List String × Nat :=
  articles.foldl (fun acc a =>
    let r := insertNewsOne acc.1 a
    (r.1, acc.2 + r.2)) (tbl, 0)

/-- The constraint-relevant fields of a funding record (db.py lines 299-316);
`companyName` is `round_data.get('name') or round_data.get('company_name')`. -/
structure FundingRound where
  companyName : Option String
  date : Option String
  source : Option String
  link : Option String
  deriving DecidableEq, Repr

/-- One iteration of the `insert_funding` loop (db.py lines 297-320). -/
def insertFundingOne (tbl : List (Option String)) (r : FundingRound) :
    List (Option String) × Nat :=
  if r.companyName = none ∨ r.date = none ∨ r.source = none then (tbl, 0)
  else
    match r.link with
    | none => (tbl ++ [none], 1)
    | some u => if some u ∈ tbl then (tbl, 0) else (tbl ++ [some u], 1)

/-- `Database.insert_funding` (db.py lines 291-324). -/
def insert_funding (tbl : List (Option String)) (rounds : List FundingRound) :
    List (Option String) × Nat :=
  rounds.foldl (fun acc r =>
    let s := insertFundingOne acc.1 r
    (s.1, acc.2 + s.2)) (tbl, 0)

/-- The constraint-relevant fields of a launch record (db.py lines 368-383). -/
structure Launch where
  name : Option String
  date : Option String
  source : Option String
  link : Option String
  deriving DecidableEq, Repr

/-- One iteration of the `insert_launches` loop (db.py lines 366-387). -/
def insertLaunchOne (tbl : List (Option String)) (l : Launch) :
    List (Option String) × Nat :=
  if l.name = none ∨ l.date = none ∨ l.source = none then (tbl, 0)
  else
    match l.link with
    | none => (tbl ++ [none], 1)
    | some u => if some u ∈ tbl then (tbl, 0) else (tbl ++ [some u], 1)

/-- `Database.insert_launches` (db.py lines 360-391). -/
def insert_launches (tbl : List (Option String)) (launches : List Launch) :
    List (Option String) × Nat :=
  launches.foldl (fun acc l =>
    let s := insertLaunchOne acc.1 l
    (s.1, acc.2 + s.2)) (tbl, 0)

/-- The constraint-relevant fields of a repository record
(db.py lines 435-458); counters default to 0 via `.get(_, 0)`. -/
structure GithubRepo where
  name : Option String
  fullName : Option String
  url : Option String
  createdAt : Option String
  updatedAt : Option String
  deriving DecidableEq, Repr

/-- One iteration of the `insert_github_repositories` loop
(db.py lines 433-462). -/
def insertRepoOne (tbl : List String) (r : GithubRepo) : List String × Nat :=
  match r.fullName with
  | none => (tbl, 0)
  | some fn =>
      if r.name = none ∨ r.url = none ∨ r.createdAt = none ∨ r.updatedAt = none then (tbl, 0)
      else if fn ∈ tbl then (tbl, 0)
      else (tbl ++ [fn], 1)

/-- `Database.insert_github_repositories` (db.py lines 427-466). -/
def insert_github_repositories (tbl : List String) (repos : List GithubRepo) :
    List String × Nat :=
  repos.foldl (fun acc r =>
    let s := insertRepoOne acc.1 r
    (s.1, acc.2 + s.2)) (tbl, 0)

/-- The constraint-relevant fields of a github signal (db.py lines 522-536).
The `repository_id` looked up at lines 511-520 only decorates the stored row
and touches no constraint, so it is not part of this view. -/
structure GithubSignal where
  signalType : Option String
  repositoryName : Option String
  indicator : Option String
  date : Option String
  deriving DecidableEq, Repr

/-- One iteration of the `insert_github_signals` loop (db.py lines 508-539):
a plain `INSERT` into a table with no UNIQUE column, so every
constraint-satisfying row is appended and counted, present already or not. -/
def insertSignalOne (tbl : List GithubSignal) (s : GithubSignal) :
    List GithubSignal × Nat :=
  if s.signalType = none ∨ s.indicator = none ∨ s.date = none then (tbl, 0)
  else (tbl ++ [s], 1)

/-- `Database.insert_github_signals` (db.py lines 502-543). -/
def insert_github_signals (tbl : List GithubSignal) (signals : List GithubSignal) :
    List GithubSignal × Nat :=
  signals.foldl (fun acc s =>
    let r := insertSignalOne acc.1 s
    (r.1, acc.2 + r.2)) (tbl, 0)

/-! ## Python values

JSON-like values and Python dicts appearing in the pipeline are modelled as
an inductive of strings, integers, lists and insertion-ordered dicts. -/

inductive PyVal where
  | pstr : String → PyVal
  | pint : Int → PyVal
  | plist : List PyVal → PyVal
  | pdict : List (String × PyVal) → PyVal

/-- `d.get(k, default)` on a dict value; non-dicts give the default, like the
`.get` of a Python dict lookup on the modelled shapes. -/
def pyGetD (v : PyVal) (k : String) (dflt : PyVal) : PyVal :=
  match v with
  | .pdict entries =>
      match entries.find? (fun e => e.1 = k) with
      | some e => e.2
      | none => dflt
  | _ => dflt

/-- `k in d` on a dict value. -/
def pyHasKey (v : PyVal) (k : String) : Bool :=
  match v with
  | .pdict entries => entries.any (fun e => e.1 = k)
  | _ => false

/-- The string of a `pstr` leaf, if the value is one. -/
def pyStr? : PyVal → Option String
  | .pstr s => some s
  | _ => none

/-- The length of a `plist` leaf, if the value is one. -/
def pyLen? : PyVal → Option Nat
  | .plist l => some l.length
  | _ => none

/-! ## Response extraction (analysis/agent.py, _parse_llm_response)

`str.find`, `str.rfind` and slicing are modelled over `List Char` with
Python index conventions (`none` in place of -1). -/

/-- `s.find(sub)`: index of the leftmost occurrence. -/
def findSub (sub : List Char) : List Char → Option Nat
  | [] => if sub.isEmpty then some 0 else none
  | c :: cs =>
      if sub.isPrefixOf (c :: cs) then some 0
      else (findSub sub cs).map (· + 1)

/-- `s.find(sub, start)`. -/
def findSubFrom (sub s : List Char) (start : Nat) : Option Nat :=
  (findSub sub (s.drop start)).map (· + start)

/-- `s.rfind(c)` for a single character: index of the rightmost occurrence. -/
def rfindChar (s : List Char) (c : Char) : Option Nat :=
  ((s.enum.filter (fun p => p.2 == c)).map Prod.fst).getLast?

/-- The slice `s[a:b]`. -/
def slice (s : List Char) (a b : Nat) : List Char :=
  (s.drop a).take (b - a)

/-- The whitespace set of `str.strip()`. -/
def pyIsSpace (c : Char) : Bool :=
  c == ' ' || c == '\t' || c == '\n' || c == '\r' || c == Char.ofNat 11 || c == Char.ofNat 12

/-- `s.strip()`. -/
def pyStrip (s : List Char) : List Char :=
  ((s.dropWhile pyIsSpace).reverse.dropWhile pyIsSpace).reverse

/-- The fence tag "```json" searched at agent.py line 274. -/
def tagJson : List Char := "```json".toList

/-- The fence "```". -/
def tagFence : List Char := "```".toList

/-- The opening brace character. -/
def lbrace : Char := Char.ofNat 123

/-- The closing brace character. -/
def rbrace : Char := Char.ofNat 125

/-- Which extraction strategy produced the candidate JSON text. -/
inductive ExtractMethod where
  | taggedFence
  | plainFence
  | braceBounds
  deriving DecidableEq, Repr

/-- The markdown-fence part of `_parse_llm_response` (agent.py lines 274-301):
on a response containing "```json", take the text up to the next fence, or
nothing when that closing fence is missing; only otherwise (the `elif`)
consider a plain fence. -/
def fencedExtract (r : List Char) : Option (ExtractMethod × List Char) :=
  match findSub tagJson r with
  | some i =>
      match findSubFrom tagFence r (i + 7) with
      | some j => some (.taggedFence, pyStrip (slice r (i + 7) j))
      | none => none
  | none =>
      match findSub tagFence r with
      | some i =>
          match findSubFrom tagFence r (i + 3) with
          | some j => some (.plainFence, pyStrip (slice r (i + 3) j))
          | none => none
      | none => none

/-- The brace-boundary part of `_parse_llm_response` (agent.py lines 304-328):
substring from the first opening brace to the last closing brace, provided
both exist and the latter is strictly after the former. -/
def braceExtract (r : List Char) : Option (List Char) :=
  match findSub [lbrace] r, rfindChar r rbrace with
  | some a, some b => if a < b then some (slice r a (b + 1)) else none
  | _, _ => none

/-- The extraction phase of `_parse_llm_response`: fenced strategies first,
brace boundaries only when no fenced candidate was set. -/
def extractJson (r : List Char) : Option (ExtractMethod × List Char) :=
  match fencedExtract r with
  | some x => some x
  | none => (braceExtract r).map (fun s => (.braceBounds, s))

/-- The canonical empty schema returned on extraction or parse failure
(agent.py lines 342-347 and 352-357). -/
def emptySchema : PyVal :=
  .pdict [("trends", .plist []), ("competitor_moves", .plist []),
          ("opportunities_for_founders", .plist []),
          ("opportunities_for_investors", .plist [])]

/-- `AnalysisAgent._parse_llm_response` (agent.py lines 266-357) over an
abstract `json.loads` behaviour: extract a candidate substring, parse it,
and fall back to the canonical empty schema when extraction finds nothing
or the candidate does not parse. -/
def parseLLMResponse (jloads : List Char → Option PyVal) (response : List Char) : PyVal :=
  match extractJson response with
  | none => emptySchema
  | some (_, s) =>
      match jloads s with
      | some v => v
      | none => emptySchema

/-- The extraction procedure that the specification sentence describes: the
four strategies tried as a fallback chain, where a JSON-tagged fence with a
missing closing fence falls back to trying any plain fenced block before the
brace-boundary strategy. -/
def specOrderedExtract (r : List Char) : Option (ExtractMethod × List Char) :=
  match (match findSub tagJson r with
         | some i => (findSubFrom tagFence r (i + 7)).map
             (fun j => (ExtractMethod.taggedFence, pyStrip (slice r (i + 7) j)))
         | none => none) with
  | some x => some x
  | none =>
      match (match findSub tagFence r with
             | some i => (findSubFrom tagFence r (i + 3)).map
                 (fun j => (ExtractMethod.plainFence, pyStrip (slice r (i + 3) j)))
             | none => none) with
      | some x => some x
      | none => (braceExtract r).map (fun s => (.braceBounds, s))

/-! ## LLM client (llm/client.py) -/

/-- `LLMClient.complete` (client.py lines 36-46): `_validate_api_key` raises
ValueError when the key is None or empty; otherwise the outcome is whatever
the provider interaction produces, a collaborator behaviour (`network`).
The Python ValueError message interpolates the provider and model names; the
constant prefix stands for it here. -/
def llmComplete (apiKey : Option String) (network : Except PyErr String) :
    Except PyErr String :=
  match apiKey with
  | none => .error (.valueError "LLM API key not configured")
  | some "" => .error (.valueError "LLM API key not configured")
  | some _ => network

/-! ## Day validation (database/db.py, _validate_days) -/

/-- `Database._validate_days` (db.py lines 35-40); the argument is typed
`Int`, so the isinstance test always passes. -/
def validate_days (days : Int) : Except PyErr Int :=
  if days < 1 ∨ days > 365 then
    .error (.valueError "days must be an integer between 1 and 365")
  else .ok days

/-! ## Analysis stage (analysis/agent.py) -/

/-- Truncation `v[:n]`, defined on the shapes the pipeline produces. -/
def pyTake (v : PyVal) (n : Nat) : PyVal :=
  match v with
  | .plist l => .plist (l.take n)
  | x => x

/-- Stamp `created_at` on a dict item that lacks it
(agent.py lines 368-372); non-dict items are kept unchanged (on them the
Python assignment would raise, which the surrounding `except Exception`
absorbs into the error result; no claim exercises that corner). -/
def stampCreatedAt (now : String) (item : PyVal) : PyVal :=
  match item with
  | .pdict es =>
      if es.any (fun e => e.1 = "created_at") then .pdict es
      else .pdict (es ++ [("created_at", .pstr now)])
  | x => x

/-- Stamp every element of a list value. -/
def stampList (now : String) (v : PyVal) : PyVal :=
  match v with
  | .plist l => .plist (l.map (stampCreatedAt now))
  | x => x

/-- `AnalysisAgent._validate_analysis_results` (agent.py lines 359-374):
keep only the four canonical keys with empty-list defaults, truncate to the
configured caps (20/20/15/15) and stamp `created_at`. -/
def validateAnalysisResults (now : String) (results : PyVal) : PyVal :=
  .pdict [
    ("trends", stampList now (pyTake (pyGetD results "trends" (.plist [])) 20)),
    ("competitor_moves",
      stampList now (pyTake (pyGetD results "competitor_moves" (.plist [])) 20)),
    ("opportunities_for_founders",
      stampList now (pyTake (pyGetD results "opportunities_for_founders" (.plist [])) 15)),
    ("opportunities_for_investors",
      stampList now (pyTake (pyGetD results "opportunities_for_investors" (.plist [])) 15))]

/-- The rows returned by the five `get_recent_*` database reads that
`analyze_recent_data` and `create_briefing` perform. -/
structure DbRows where
  news : List PyVal
  funding : List PyVal
  launches : List PyVal
  repos : List PyVal
  signals : List PyVal

/-- The stage dict built in the `except ValueError` arm of
`analyze_recent_data` (agent.py lines 182-196). -/
def analysisKeyErrorDict (m : String) : PyVal :=
  .pdict [("status", .pstr "error"), ("error", .pstr m),
          ("message", .pstr "LLM API key not configured. Set OPENAI_API_KEY or ANTHROPIC_API_KEY environment variable."),
          ("results", emptySchema)]

/-- The stage dict built in the generic `except Exception` arm
(agent.py lines 197-208). -/
def analysisErrorDict (m : String) : PyVal :=
  .pdict [("status", .pstr "error"), ("error", .pstr m), ("results", emptySchema)]

/-- The stage dict returned on success (agent.py lines 169-180); the
wall-clock `duration_seconds` is modelled as 0. -/
def analysisSuccessDict (results : PyVal) (rows : DbRows) : PyVal :=
  .pdict [("status", .pstr "success"), ("duration_seconds", .pint 0),
          ("results", results),
          ("data_analyzed", .pdict [
            ("news_articles", .pint rows.news.length),
            ("funding_rounds", .pint rows.funding.length),
            ("launches", .pint rows.launches.length),
            ("github_repositories", .pint rows.repos.length),
            ("github_signals", .pint rows.signals.length)])]

/-- `AnalysisAgent.analyze_recent_data` (agent.py lines 115-208).  The five
database reads run before the `try` block and each validates the day range,
so an invalid `days_back` raises to the caller; everything after that point
is covered by the two `except` arms and therefore always returns a stage
dict.  `network` is the provider behaviour, `jloads` the JSON parser
behaviour, `saveAnalysis` the behaviour of `save_analysis_result`. -/
def analyzeStageResult (apiKey : Option String) (network : Except PyErr String)
    (jloads : List Char → Option PyVal) (rows : DbRows)
    (saveAnalysis : Except PyErr Unit) (now : String) : PyVal :=
  match llmComplete apiKey network with
  | .error (.valueError m) => analysisKeyErrorDict m
  | .error e => analysisErrorDict e.toStr
  | .ok resp =>
      let results := validateAnalysisResults now (parseLLMResponse jloads resp.toList)
      match saveAnalysis with
      | .error e => analysisErrorDict e.toStr
      | .ok _ => analysisSuccessDict results rows

/-- The exception behaviour of `analyze_recent_data`: reads first, then the
fully-handled body. -/
def analyzeRecentData (days : Int) (apiKey : Option String)
    (network : Except PyErr String) (jloads : List Char → Option PyVal)
    (rows : DbRows) (saveAnalysis : Except PyErr Unit) (now : String) :
    Except PyErr PyVal := do
  let _ ← validate_days days
  pure (analyzeStageResult apiKey network jloads rows saveAnalysis now)

/-! ## Summarizer (summarizer/agent.py) -/

/-- Length of a list value; `len` on the list shapes the stage produces. -/
def pyListLen (v : PyVal) : Nat :=
  match v with
  | .plist l => l.length
  | _ => 0

/-- An apostrophe, spelled via its code point. -/
def apos : String := String.singleton (Char.ofNat 39)

/-- `SummarizerAgent._generate_fallback_summary` (summarizer/agent.py lines
133-143): a deterministic template over three counts taken from the
analysis results (the `funding_count` variable counts competitor moves, as
in the source). -/
def generateFallbackSummary (analysisResults : PyVal) : String :=
  let results := pyGetD analysisResults "results" (.pdict [])
  let trends := pyListLen (pyGetD results "trends" (.plist []))
  let fundingCount := pyListLen (pyGetD results "competitor_moves" (.plist []))
  let opportunities := pyListLen (pyGetD results "opportunities_for_founders" (.plist []))
  "Today" ++ apos ++ "s startup intelligence reveals " ++ toString trends ++
    " key trends across the ecosystem. We" ++ apos ++ "ve identified " ++
    toString fundingCount ++ " significant market moves and " ++
    toString opportunities ++ " actionable opportunities. " ++
    "Key areas of interest include emerging technologies, strategic funding rounds, and market gaps."

/-- `SummarizerAgent._generate_summary` (summarizer/agent.py lines 113-131):
on any exception from the completion call, including the unconfigured-key
ValueError, fall back to the deterministic template; on success return the
stripped completion text. -/
def generateSummary (apiKey : Option String) (network : Except PyErr String)
    (analysisResults : PyVal) : String :=
  match llmComplete apiKey network with
  | .ok s => String.mk (pyStrip s.toList)
  | .error _ => generateFallbackSummary analysisResults

/-- `SummarizerAgent.create_briefing` (summarizer/agent.py lines 52-111).
The four database reads validate the day range first; after them the method
always returns a briefing dict.  Of the built dict this model keeps the
claim-relevant entries: the dates, the summary, the trend list and the
statistics; the remaining entries (`funding_rounds`, `product_launches`,
`competitor_moves`, the opportunity lists, `intelligence_threads`) are pure
per-item reshapings of the same inputs that no claim inspects. -/
def briefingDict (analysisResults : PyVal) (apiKey : Option String)
    (network : Except PyErr String) (rows : DbRows) (now : String) : PyVal :=
  .pdict [
    ("briefing_date", .pstr now),
    ("generated_at", .pstr now),
    ("summary", .pstr (generateSummary apiKey network analysisResults)),
    ("trends", pyGetD (pyGetD analysisResults "results" (.pdict [])) "trends" (.plist [])),
    ("statistics", .pdict [
      ("news_articles_analyzed", .pint rows.news.length),
      ("funding_rounds_analyzed", .pint rows.funding.length),
      ("launches_analyzed", .pint rows.launches.length)])]

/-- The exception behaviour of `create_briefing`: reads first, then the
total dict construction. -/
def createBriefing (analysisResults : PyVal) (days : Int) (apiKey : Option String)
    (network : Except PyErr String) (rows : DbRows) (now : String) :
    Except PyErr PyVal := do
  let _ ← validate_days days
  pure (briefingDict analysisResults apiKey network rows now)

/-! ## Orchestrator (orchestrator/agent.py) -/

/-- `OrchestratorAgent.collect_all_data` (agent.py lines 152-182): gather
the three collector behaviours with `return_exceptions=True` and replace an
exception in a slot by that slot-specific dict.  Only the news replacement
carries an "error" entry; the startup and github replacements are plain
empty results. -/
def collectAllData (newsC startupC githubC : Except PyErr PyVal) : PyVal :=
  .pdict [
    ("news", match newsC with
      | .ok v => v
      | .error e => .pdict [("error", .pstr e.toStr), ("sources", .pdict []),
                            ("total", .pint 0)]),
    ("startup", match startupC with
      | .ok v => v
      | .error _ => .pdict [("funding", .plist []), ("launches", .plist [])]),
    ("github", match githubC with
      | .ok v => v
      | .error _ => .pdict [("trending", .plist []), ("signals", .plist [])])]

/-- Python truthiness on the modelled values. -/
def pyTruthy (v : PyVal) : Bool :=
  match v with
  | .pstr s => !s.isEmpty
  | .pint n => n ≠ 0
  | .plist l => !l.isEmpty
  | .pdict es => !es.isEmpty

/-- View a value as a dict, as attribute access on it would require. -/
def asDictE (v : PyVal) : Except PyErr (List (String × PyVal)) :=
  match v with
  | .pdict es => .ok es
  | _ => .error (.other "AttributeError")

/-- View a value as a list, as iterating it would require. -/
def asListE (v : PyVal) : Except PyErr (List PyVal) :=
  match v with
  | .plist l => .ok l
  | _ => .error (.other "TypeError")

/-- Replace or append a dict entry, as Python item assignment does. -/
def dictSet (es : List (String × PyVal)) (k : String) (v : PyVal) :
    List (String × PyVal) :=
  if es.any (fun e => e.1 = k) then
    es.map (fun e => if e.1 = k then (k, v) else e)
  else es ++ [(k, v)]

/-- `OrchestratorAgent.store_news_articles` (agent.py lines 184-199):
flatten the per-source article lists, tag each article with its source name
and hand the batch to `db.insert_news` (the behaviour `insertF`); an empty
batch skips the insert and returns 0. -/
def storeNewsArticles (newsData : PyVal) (insertF : List PyVal → Except PyErr Int) :
    Except PyErr Int := do
  let sources ← asDictE (pyGetD newsData "sources" (.pdict []))
  let articles ← sources.foldlM (fun acc e => do
      let sdata ← asDictE e.2
      let sarts ← asListE (pyGetD (.pdict sdata) "articles" (.plist []))
      let tagged ← sarts.mapM (fun a => do
          let es2 ← asDictE a
          pure (PyVal.pdict (dictSet es2 "source" (.pstr e.1))))
      pure (acc ++ tagged)) ([] : List PyVal)
  if articles.isEmpty then pure 0 else insertF articles

/-- `OrchestratorAgent.store_startup_signals` (agent.py lines 201-215):
insert funding rounds and launches when truthy, else count 0.  The two
behaviours stand for `db.insert_funding` and `db.insert_launches` applied
to the respective collection values. -/
def storeStartupSignals (d : PyVal) (insertFundingF insertLaunchesF : PyVal → Except PyErr Int) :
    Except PyErr (Int × Int) := do
  let funding := pyGetD d "funding" (.plist [])
  let launches := pyGetD d "launches" (.plist [])
  let fIns ← if pyTruthy funding then insertFundingF funding else pure 0
  let lIns ← if pyTruthy launches then insertLaunchesF launches else pure 0
  pure (fIns, lIns)

/-- `OrchestratorAgent.store_github_signals` (agent.py lines 217-231). -/
def storeGithubSignals (d : PyVal) (insertReposF insertSignalsF : PyVal → Except PyErr Int) :
    Except PyErr (Int × Int) := do
  let trending := pyGetD d "trending" (.plist [])
  let signals := pyGetD d "signals" (.plist [])
  let rIns ← if pyTruthy trending then insertReposF trending else pure 0
  let sIns ← if pyTruthy signals then insertSignalsF signals else pure 0
  pure (rIns, sIns)

/-- Modelled from the spec: the EnrichmentAgent module
(enrichment/agent.py), whose `enrich_recent_data` the orchestrator awaits at
step 3, is not among the provided sources.  Per the spec the Enrich stage,
when the text-completion capability is unconfigured, must produce a
degraded-but-successful result via a deterministic fallback rather than
failing the run; this definition is that specified unconfigured behaviour. -/
def enrichUnconfiguredSpec (days : Int) : Except PyErr PyVal :=
  .ok (.pdict [("status", .pstr "success"), ("days_back", .pint days),
               ("enriched", .pint 0)])

/-- The collaborator behaviours that one execution of `run_full_workflow`
consumes: the three collectors, the five insert operations, the Enrich
stage, the completion capability (key plus one network behaviour per
client), the JSON parser, the database reads and the two save operations. -/
structure Collabs where
  newsC : Except PyErr PyVal
  startupC : Except PyErr PyVal
  githubC : Except PyErr PyVal
  insertNewsF : List PyVal → Except PyErr Int
  insertFundingF : PyVal → Except PyErr Int
  insertLaunchesF : PyVal → Except PyErr Int
  insertReposF : PyVal → Except PyErr Int
  insertSignalsF : PyVal → Except PyErr Int
  enrichF : Int → Except PyErr PyVal
  apiKey : Option String
  analysisNetwork : Except PyErr String
  summaryNetwork : Except PyErr String
  jloads : List Char → Option PyVal
  rows : DbRows
  saveAnalysisF : Except PyErr Unit
  saveBriefingF : Except PyErr Unit
  nowIso : String

/-- `OrchestratorAgent.run_full_workflow` (agent.py lines 233-294): collect,
store, enrich, analyze, summarize, persist the briefing, and return the
success dict.  The method has no exception handler of its own, so an
exception from any stage after collection propagates to the caller; the
final status is the literal "success" whenever control reaches the end,
independent of the per-stage statuses. -/
def runFullWorkflow (days : Int) (c : Collabs) : Except PyErr PyVal := do
  let collected := collectAllData c.newsC c.startupC c.githubC
  let newsIns ← storeNewsArticles (pyGetD collected "news" (.pdict [])) c.insertNewsF
  let startupIns ← storeStartupSignals (pyGetD collected "startup" (.pdict []))
    c.insertFundingF c.insertLaunchesF
  let githubIns ← storeGithubSignals (pyGetD collected "github" (.pdict []))
    c.insertReposF c.insertSignalsF
  let _ ← c.enrichF days
  let ares ← analyzeRecentData days c.apiKey c.analysisNetwork c.jloads c.rows
    c.saveAnalysisF c.nowIso
  let briefing ← createBriefing ares days c.apiKey c.summaryNetwork c.rows c.nowIso
  let _ ← c.saveBriefingF
  pure (.pdict [
    ("status", .pstr "success"),
    ("duration_seconds", .pint 0),
    ("workflow", .pstr "collect → enrich → analyze → summarize"),
    ("data_collected", .pdict [
      ("news_articles", .pint newsIns),
      ("funding_rounds", .pint startupIns.1),
      ("launches", .pint startupIns.2),
      ("github_repositories", .pint githubIns.1),
      ("github_signals", .pint githubIns.2)]),
    ("briefing_date", .pstr c.nowIso),
    ("briefing", briefing)])

/-! ## Briefing-by-date endpoint (api/server.py, get_briefing_by_date)

`datetime.strptime(date, "%Y-%m-%d")` compiles the format with CPython
TimeRE into `(?P<Y>\d\d\d\d)\-(?P<m>1[0-2]|0[1-9]|[1-9])\-(?P<d>3[01]|[12]\d|0[1-9]|[1-9])`,
matches it at the start of the string, raises ValueError when the match
fails or leaves unconverted characters, converts each group with `int`, and
the `datetime` constructor then enforces the calendar bounds (year at least
1, day within the month).  The character class `\d` is the Unicode decimal
digit category Nd, while the bracketed classes and literals of the %m and
%d alternations are plain ASCII characters, so non-ASCII digits are
accepted exactly in the %Y group and in the second position of the `[12]\d`
day alternative. -/

/-- The first code points of the 66 aligned runs of ten consecutive
characters that make up the Unicode Nd (decimal digit) category in the
table CPython ships; the character at `start + v` has digit value `v`. -/
def ndDecadeStarts : List Nat :=
  [48, 1632, 1776, 1984, 2406, 2534, 2662, 2790, 2918, 3046, 3174, 3302,
   3430, 3558, 3664, 3792, 3872, 4160, 4240, 6112, 6160, 6470, 6608, 6784,
   6800, 6992, 7088, 7232, 7248, 42528, 43216, 43264, 43472, 43504, 43600,
   44016, 65296, 66720, 68912, 69734, 69872, 69942, 70096, 70384, 70736,
   70864, 71248, 71360, 71472, 71904, 72016, 72784, 73040, 73120, 92768,
   92864, 93008, 120782, 120792, 120802, 120812, 120822, 123200, 123632,
   125264, 130032]

/-- The decimal value of any Unicode Nd digit: what `\d` matches and `int`
converts in CPython. -/
def digitNd? (c : Char) : Option Nat :=
  ndDecadeStarts.findSome? (fun z =>
    if z ≤ c.toNat ∧ c.toNat < z + 10 then some (c.toNat - z) else none)

/-- The value of a character inside an ASCII digit class `[lo-hi]`. -/
def asciiRange? (lo hi c : Char) : Option Nat :=
  if lo ≤ c ∧ c ≤ hi then some (c.toNat - 48) else none

/-- Gregorian leap-year rule as used by `datetime`. -/
def isLeap (y : Nat) : Bool :=
  y % 4 = 0 && (y % 100 ≠ 0 || y % 400 = 0)

/-- Days in a month of the proleptic Gregorian calendar. -/
def daysInMonth (y m : Nat) : Nat :=
  if m = 2 then (if isLeap y then 29 else 28)
  else if m = 4 ∨ m = 6 ∨ m = 9 ∨ m = 11 then 30
  else 31

/-- The alternatives of the %m pattern `1[0-2]|0[1-9]|[1-9]` that match at
the head of `s`, in the order the regex engine prefers them; all its
literals and classes are ASCII. -/
def monthCandidates (s : List Char) : List (Nat × List Char) :=
  (match s with
   | '1' :: c :: rest =>
       match asciiRange? '0' '2' c with
       | some v => [(10 + v, rest)]
       | none => []
   | _ => []) ++
  (match s with
   | '0' :: c :: rest =>
       match asciiRange? '1' '9' c with
       | some v => [(v, rest)]
       | none => []
   | _ => []) ++
  (match s with
   | c :: rest =>
       match asciiRange? '1' '9' c with
       | some v => [(v, rest)]
       | none => []
   | _ => [])

/-- The alternatives of the %d pattern `3[01]|[12]\d|0[1-9]|[1-9]` that
match at the head of `s`, in preference order; only the second position of
the `[12]\d` alternative admits non-ASCII digits, and `int` of the matched
text uses the Unicode digit values. -/
def dayCandidates (s : List Char) : List (Nat × List Char) :=
  (match s with
   | '3' :: c :: rest =>
       match asciiRange? '0' '1' c with
       | some v => [(30 + v, rest)]
       | none => []
   | _ => []) ++
  (match s with
   | c1 :: c2 :: rest =>
       match asciiRange? '1' '2' c1, digitNd? c2 with
       | some v1, some v2 => [(10 * v1 + v2, rest)]
       | _, _ => []
   | _ => []) ++
  (match s with
   | '0' :: c :: rest =>
       match asciiRange? '1' '9' c with
       | some v => [(v, rest)]
       | none => []
   | _ => []) ++
  (match s with
   | c :: rest =>
       match asciiRange? '1' '9' c with
       | some v => [(v, rest)]
       | none => []
   | _ => [])

/-- Acceptance of `datetime.strptime(s, "%Y-%m-%d")` together with the
checks of the `datetime` constructor.  The regex settles on the first month
alternative whose continuation (a dash and some day alternative) matches;
nothing follows the day group, so its first matching alternative is the
settled one, and leftover characters after it raise the unconverted-data
ValueError rather than causing further backtracking. -/
def strptimeYMD (s : List Char) : Option (Nat × Nat × Nat) :=
  match s with
  | c1 :: c2 :: c3 :: c4 :: '-' :: rest1 =>
      match digitNd? c1, digitNd? c2, digitNd? c3, digitNd? c4 with
      | some w, some x, some y, some z =>
          let year := 1000 * w + 100 * x + 10 * y + z
          match (monthCandidates rest1).findSome? (fun mc =>
              match mc.2 with
              | '-' :: rest3 => (dayCandidates rest3).head?.map (fun dc => (mc.1, dc))
              | _ => none) with
          | some (m, d, leftover) =>
              if leftover = [] ∧ 1 ≤ year ∧ d ≤ daysInMonth year m then
                some (year, m, d)
              else none
          | none => none
      | _, _, _, _ => none
  | _ => none

/-- The literal reading of the "YYYY-MM-DD format" named in the handler
docstring and the 400 detail text: exactly ten characters, four ASCII year
digits, two ASCII month digits and two ASCII day digits separated by
dashes. -/
def strictAsciiYMD (s : List Char) : Bool :=
  match s with
  | [y1, y2, y3, y4, s1, m1, m2, s2, d1, d2] =>
      y1.isDigit && y2.isDigit && y3.isDigit && y4.isDigit && s1 == '-' &&
      m1.isDigit && m2.isDigit && s2 == '-' && d1.isDigit && d2.isDigit
  | _ => false

/-- `get_briefing_by_date` (server.py lines 121-141).  The boolean records
whether `db.get_briefing_by_date` was reached.  A ValueError from the
strptime validation is answered with 400 before the query; on an accepted
date with no stored briefing the handler raises HTTPException(404), which
is not a ValueError and therefore lands in the blanket `except Exception`,
turning into a 500. -/
def get_briefing_by_date (date : String) (dbLookup : String → Option PyVal) :
    HttpResp × Bool :=
  if (strptimeYMD date.toList).isSome then
    match dbLookup date with
    | some _ => (⟨200, "briefing"⟩, true)
    | none => (⟨500, "404: Briefing not found"⟩, true)
  else (⟨400, "Invalid date format. Use YYYY-MM-DD"⟩, false)

/-! ## Theorems about the scheduler -/

/-- A running scheduler state used to evaluate concrete ticks. -/
def tickDemoState : SchedulerState :=
  { isRunning := true, enabled := true, lastRun := some 100, nextRun := some 160,
    frequency := some .custom, intervalSeconds := some 60 }

/-- C1: the claim says that after a run of duration T > 0 the next run time is
the completion time plus the interval.  Counterexample: with interval 60, a
run that starts at 200 and takes 5 seconds reschedules to 260 = 200 + 60,
not to 265 = (200 + 5) + 60, because `_run_workflow` stores the start time
in `last_run` and `_calculate_next_run` adds the interval to `last_run`. -/
theorem scheduler_nextRun_not_completion_based :
    (scheduledTick tickDemoState 200 5 true).nextRun = some 260 ∧
    (scheduledTick tickDemoState 200 5 true).nextRun ≠ some ((200 + 5) + 60) := by
  decide

/-- C1 (amended): for every run driven by the scheduler, successful or not,
`next_run` equals the run start time plus `interval_seconds`. -/
theorem scheduler_nextRun_eq_start_plus_interval
    (st : SchedulerState) (startTime duration : Nat) (ok : Bool) (i : Nat)
    (hi : st.intervalSeconds = some i) (hpos : 0 < i) :
    (scheduledTick st startTime duration ok).nextRun = some (startTime + i) := by
  cases i with
  | zero => exact absurd hpos (lt_irrefl 0)
  | succ n => simp [scheduledTick, runWorkflow, calculateNextRun, hi]

/-- Witness for the amended C1 theorem at a concrete state and run. -/
theorem scheduler_nextRun_eq_start_plus_interval_witness :
    (scheduledTick tickDemoState 200 5 true).nextRun = some (200 + 60) :=
  scheduler_nextRun_eq_start_plus_interval tickDemoState 200 5 true 60 rfl (by decide)

/-- C8: the code evaluated at the failing input.  A scheduled run starts at
time 200 with prior `last_run = 100` and interval 60; the workflow runner
raises.  The claim (and the comment at scheduler.py line 152) says `last_run`
keeps its old value and the loop backs off, but the code had already set
`last_run` to the start time at line 143, before awaiting the runner, and
`_run_workflow` swallows the exception, so the loop immediately recomputes
`next_run = 200 + 60` without the 300-second backoff ever being reached. -/
theorem scheduler_failed_run_advances_lastRun :
    (scheduledTick tickDemoState 200 0 false).lastRun = some 200 ∧
    (scheduledTick tickDemoState 200 0 false).lastRun ≠ some 100 ∧
    (scheduledTick tickDemoState 200 0 false).nextRun = some 260 := by
  decide

/-! ## Theorems about the workflow trigger lock -/

/-- C2: two StartRun requests whose critical sections are serialized by
`workflow_lock`, starting from a state with no workflow in flight: the first
one through the lock is accepted, the second receives Conflict, and the
conflicting request leaves the state untouched (it neither queues nor blocks
behind the winner).  The two requests are identical operations, so this
covers both serialization orders of the concurrent pair. -/
theorem startRun_exactly_one_accepted (ws : WorkflowStatus) (h : ws.running = false) :
    (triggerWorkflowCheckAndSet ws).2 = .accepted ∧
    (triggerWorkflowCheckAndSet (triggerWorkflowCheckAndSet ws).1).2 = .conflict ∧
    (triggerWorkflowCheckAndSet (triggerWorkflowCheckAndSet ws).1).1 =
      (triggerWorkflowCheckAndSet ws).1 := by
  simp [triggerWorkflowCheckAndSet, h]

/-- Witness for the C2 theorem at the initial server state. -/
theorem startRun_exactly_one_accepted_witness :
    (triggerWorkflowCheckAndSet ⟨false, none, none⟩).2 = .accepted ∧
    (triggerWorkflowCheckAndSet (triggerWorkflowCheckAndSet ⟨false, none, none⟩).1).2 =
      .conflict ∧
    (triggerWorkflowCheckAndSet (triggerWorkflowCheckAndSet ⟨false, none, none⟩).1).1 =
      (triggerWorkflowCheckAndSet ⟨false, none, none⟩).1 :=
  startRun_exactly_one_accepted ⟨false, none, none⟩ rfl

/-! ## Theorems about StartScheduler -/

/-- C9: the code evaluated at the failing input.  StartScheduler with
frequency=custom and intervalSeconds absent leaves the scheduler state
exactly as it was, but replies with HTTP 500, not the InvalidArgument (400)
the claim states: the handler does raise HTTPException(400) at server.py
line 395, yet the blanket `except Exception` at line 433 catches it and
re-raises it as HTTPException(500). -/
theorem startScheduler_custom_none_500_unchanged
    (schedOpt : Option SchedulerState) (now : Nat) :
    (startSchedulerHandler schedOpt now .custom none).1 = schedOpt ∧
    (startSchedulerHandler schedOpt now .custom none).2.status = 500 := by
  match schedOpt with
  | none => simp [startSchedulerHandler]
  | some st =>
      by_cases h : st.isRunning <;> simp [startSchedulerHandler, h]

/-! ## Theorems about the response extractor -/

/-- A raw completion text containing a closed plain fenced block followed by
a JSON-tagged fence that never closes. -/
def extractDemo : List Char :=
  "pre \x7bbad\n```\n\x7b\"a\": 1\x7d\n```\n```json\n\x7b".toList

/-- C5 counterexample: on `extractDemo` the strategy order the claim states
would fall back from the unclosed JSON-tagged fence to strategy (2) and
extract the closed plain fenced block, but the code never tries strategy (2)
once "```json" occurs anywhere in the response: it jumps to the
brace-boundary strategy and extracts a different, larger substring. -/
theorem extractor_order_counterexample :
    specOrderedExtract extractDemo =
      some (.plainFence, "\x7b\"a\": 1\x7d".toList) ∧
    extractJson extractDemo =
      some (.braceBounds, "\x7bbad\n```\n\x7b\"a\": 1\x7d".toList) ∧
    ("\x7bbad\n```\n\x7b\"a\": 1\x7d".toList : List Char) ≠ "\x7b\"a\": 1\x7d".toList := by
  decide

/-- C5 (amended): the extractor applies strategy (1) when the response
contains "```json" with a matching closing fence; when "```json" occurs but
no closing fence follows it the extractor skips strategy (2) entirely and
falls through to the brace-boundary strategy; strategy (2) is applied only
when the response contains no "```json" but does contain a closed plain
fence; brace boundaries require the first opening brace to lie strictly
before the last closing brace; and when no strategy yields a candidate, or
the candidate does not parse as JSON, the canonical empty schema is returned
instead of raising. -/
theorem extractor_strategy_order (jloads : List Char → Option PyVal) (r : List Char) :
    (∀ i j, findSub tagJson r = some i → findSubFrom tagFence r (i + 7) = some j →
        extractJson r = some (.taggedFence, pyStrip (slice r (i + 7) j))) ∧
    (∀ i, findSub tagJson r = some i → findSubFrom tagFence r (i + 7) = none →
        extractJson r = (braceExtract r).map (fun s => (.braceBounds, s))) ∧
    (∀ i j, findSub tagJson r = none → findSub tagFence r = some i →
        findSubFrom tagFence r (i + 3) = some j →
        extractJson r = some (.plainFence, pyStrip (slice r (i + 3) j))) ∧
    (∀ i, findSub tagJson r = none → findSub tagFence r = some i →
        findSubFrom tagFence r (i + 3) = none →
        extractJson r = (braceExtract r).map (fun s => (.braceBounds, s))) ∧
    (findSub tagJson r = none → findSub tagFence r = none →
        extractJson r = (braceExtract r).map (fun s => (.braceBounds, s))) ∧
    (∀ a b, findSub [lbrace] r = some a → rfindChar r rbrace = some b → a < b →
        braceExtract r = some (slice r a (b + 1))) ∧
    (extractJson r = none → parseLLMResponse jloads r = emptySchema) ∧
    (∀ m s, extractJson r = some (m, s) → jloads s = none →
        parseLLMResponse jloads r = emptySchema) := by
  refine ⟨?_, ?_, ?_, ?_, ?_, ?_, ?_, ?_⟩
  · intro i j h1 h2
    simp [extractJson, fencedExtract, h1, h2]
  · intro i h1 h2
    simp [extractJson, fencedExtract, h1, h2]
  · intro i j h0 h1 h2
    simp [extractJson, fencedExtract, h0, h1, h2]
  · intro i h0 h1 h2
    simp [extractJson, fencedExtract, h0, h1, h2]
  · intro h0 h1
    simp [extractJson, fencedExtract, h0, h1]
  · intro a b h1 h2 h3
    simp [braceExtract, h1, h2, h3]
  · intro h
    simp [parseLLMResponse, h]
  · intro m s h hj
    simp [parseLLMResponse, h, hj]

/-- Witness for the amended C5 theorem: on `extractDemo` the JSON tag occurs
at index 26 with no closing fence after it, so extraction falls through to
the brace-boundary strategy. -/
theorem extractor_strategy_order_witness :
    extractJson extractDemo =
      (braceExtract extractDemo).map (fun s => (.braceBounds, s)) :=
  ((extractor_strategy_order (fun _ => none) extractDemo).2.1) 26 (by decide) (by decide)

/-! ## Theorems about record insertion -/

/-- A fully-populated github signal used for concrete insert evaluations. -/
def dupSignal : GithubSignal :=
  { signalType := some "traction", repositoryName := some "acme/widget",
    indicator := some "stars spike", date := some "2025-01-01" }

/-- C6 counterexample: `github_signals` is a record kind with no UNIQUE
column, inserted with a plain `INSERT`; re-inserting a signal that is
already stored appends a duplicate row and the returned inserted count
increases by 1, not 0. -/
theorem insert_github_signals_reinsertion_not_noop :
    (insert_github_signals [dupSignal] [dupSignal]).2 = 1 ∧
    (insert_github_signals [dupSignal] [dupSignal]).1 = [dupSignal, dupSignal] := by
  decide

/-- C6 (amended): for the four record kinds carrying a UNIQUE dedup key and
inserted with `INSERT OR IGNORE` (news by url, funding and launches by link,
repositories by full name), re-inserting a record whose key is already
stored is a silent no-op: no error, table unchanged, count increased by 0.
For `github_signals`, which has no dedup key, re-inserting a valid signal
appends a duplicate and counts 1. -/
theorem insert_dedup_noop_except_signals
    (newsTbl : List String) (a : NewsArticle) (u : String)
    (hu : a.url = some u) (hum : u ∈ newsTbl)
    (fundTbl : List (Option String)) (f : FundingRound) (lf : String)
    (hf : f.link = some lf) (hfm : some lf ∈ fundTbl)
    (launchTbl : List (Option String)) (l : Launch) (ll : String)
    (hl : l.link = some ll) (hlm : some ll ∈ launchTbl)
    (repoTbl : List String) (r : GithubRepo) (fn : String)
    (hr : r.fullName = some fn) (hrm : fn ∈ repoTbl)
    (sigTbl : List GithubSignal) (s : GithubSignal)
    (hs1 : s.signalType ≠ none) (hs2 : s.indicator ≠ none) (hs3 : s.date ≠ none) :
    insert_news newsTbl [a] = (newsTbl, 0) ∧
    insert_funding fundTbl [f] = (fundTbl, 0) ∧
    insert_launches launchTbl [l] = (launchTbl, 0) ∧
    insert_github_repositories repoTbl [r] = (repoTbl, 0) ∧
    insert_github_signals sigTbl [s] = (sigTbl ++ [s], 1) := by
  refine ⟨?_, ?_, ?_, ?_, ?_⟩
  · simp [insert_news, insertNewsOne, hu, hum]
  · simp [insert_funding, insertFundingOne, hf, hfm]
  · simp [insert_launches, insertLaunchOne, hl, hlm]
  · simp [insert_github_repositories, insertRepoOne, hr, hrm]
  · simp [insert_github_signals, insertSignalOne, hs1, hs2, hs3]

/-- Witness for the amended C6 theorem at concrete tables and records. -/
theorem insert_dedup_noop_except_signals_witness :
    insert_news ["https://a.example/x"]
      [⟨some "t", some "https://a.example/x", some "s", some "2025-01-01"⟩] =
      (["https://a.example/x"], 0) ∧
    insert_funding [some "https://f.example/y"]
      [⟨some "Acme", some "2025-01-01", some "src", some "https://f.example/y"⟩] =
      ([some "https://f.example/y"], 0) ∧
    insert_launches [some "https://l.example/z"]
      [⟨some "Widget", some "2025-01-01", some "src", some "https://l.example/z"⟩] =
      ([some "https://l.example/z"], 0) ∧
    insert_github_repositories ["acme/widget"]
      [⟨some "widget", some "acme/widget", some "https://g.example/w", some "2025",
        some "2025"⟩] =
      (["acme/widget"], 0) ∧
    insert_github_signals [] [dupSignal] = ([] ++ [dupSignal], 1) :=
  insert_dedup_noop_except_signals
    ["https://a.example/x"] _ "https://a.example/x" rfl (by decide)
    [some "https://f.example/y"] _ "https://f.example/y" rfl (by decide)
    [some "https://l.example/z"] _ "https://l.example/z" rfl (by decide)
    ["acme/widget"] _ "acme/widget" rfl (by decide)
    [] dupSignal (by decide) (by decide) (by decide)

/-! ## Theorems about the full workflow -/

/-- A benign set of collaborator behaviours: collectors return their empty
payload shapes, inserts succeed with 0 rows, enrichment follows the
spec-modelled unconfigured fallback, the completion key is unconfigured and
both save operations succeed. -/
def benignCollabs : Collabs :=
  { newsC := .ok (.pdict [("sources", .pdict []), ("total", .pint 0)]),
    startupC := .ok (.pdict [("funding", .plist []), ("launches", .plist [])]),
    githubC := .ok (.pdict [("trending", .plist []), ("signals", .plist [])]),
    insertNewsF := fun _ => .ok 0,
    insertFundingF := fun _ => .ok 0,
    insertLaunchesF := fun _ => .ok 0,
    insertReposF := fun _ => .ok 0,
    insertSignalsF := fun _ => .ok 0,
    enrichF := enrichUnconfiguredSpec,
    apiKey := none,
    analysisNetwork := .error (.other "unreachable"),
    summaryNetwork := .error (.other "unreachable"),
    jloads := fun _ => none,
    rows := ⟨[], [], [], [], []⟩,
    saveAnalysisF := .ok (),
    saveBriefingF := .ok (),
    nowIso := "2025-01-01" }

/-- C4 counterexample: with no API key the Analyze stage does produce its
deterministic empty-results dict without raising, but that dict reports
status "error", not "success". -/
theorem analyze_unconfigured_reports_error_status :
    analyzeRecentData 7 none (.error (.other "unreachable")) (fun _ => none)
        ⟨[], [], [], [], []⟩ (.ok ()) "2025-01-01" =
      .ok (analysisKeyErrorDict "LLM API key not configured") ∧
    pyGetD (analysisKeyErrorDict "LLM API key not configured") "status" (.pstr "") =
      .pstr "error" ∧
    PyVal.pstr "error" ≠ PyVal.pstr "success" := by
  refine ⟨rfl, rfl, ?_⟩
  intro h
  exact absurd (PyVal.pstr.inj h) (by decide)

/-- C4 (amended): with the completion capability unconfigured each stage
still degrades deterministically instead of failing the run: Analyze
returns its canonical empty analysis lists, though with stage status
"error" rather than "success"; Summarize returns the deterministic template
fallback text; and the spec-modelled Enrich stage reports success. -/
theorem llm_unconfigured_degraded_stages (days : Int)
    (hd1 : 1 ≤ days) (hd2 : days ≤ 365)
    (net1 net2 : Except PyErr String) (jl : List Char → Option PyVal)
    (rows : DbRows) (saveA : Except PyErr Unit) (now : String) (ar : PyVal) :
    analyzeRecentData days none net1 jl rows saveA now =
      .ok (analysisKeyErrorDict "LLM API key not configured") ∧
    pyGetD (analysisKeyErrorDict "LLM API key not configured") "results" (.pdict []) =
      emptySchema ∧
    pyGetD (analysisKeyErrorDict "LLM API key not configured") "status" (.pstr "") =
      .pstr "error" ∧
    generateSummary none net2 ar = generateFallbackSummary ar ∧
    enrichUnconfiguredSpec days =
      .ok (.pdict [("status", .pstr "success"), ("days_back", .pint days),
                   ("enriched", .pint 0)]) := by
  have hval : validate_days days = .ok days := by
    simp only [validate_days, ite_eq_right_iff]
    intro h
    exact absurd h (by omega)
  refine ⟨?_, rfl, rfl, rfl, rfl⟩
  simp [analyzeRecentData, analyzeStageResult, hval, llmComplete, bind, Except.bind,
    pure, Except.pure]

/-- Witness for the amended C4 theorem at concrete stage inputs. -/
theorem llm_unconfigured_degraded_stages_witness :
    analyzeRecentData 7 none (.error (.other "unreachable")) (fun _ => none)
        ⟨[], [], [], [], []⟩ (.ok ()) "2025-01-01" =
      .ok (analysisKeyErrorDict "LLM API key not configured") ∧
    pyGetD (analysisKeyErrorDict "LLM API key not configured") "results" (.pdict []) =
      emptySchema ∧
    pyGetD (analysisKeyErrorDict "LLM API key not configured") "status" (.pstr "") =
      .pstr "error" ∧
    generateSummary none (.error (.other "unreachable")) emptySchema =
      generateFallbackSummary emptySchema ∧
    enrichUnconfiguredSpec 7 =
      .ok (.pdict [("status", .pstr "success"), ("days_back", .pint 7),
                   ("enriched", .pint 0)]) :=
  llm_unconfigured_degraded_stages 7 (by decide) (by decide)
    (.error (.other "unreachable")) (.error (.other "unreachable")) (fun _ => none)
    ⟨[], [], [], [], []⟩ (.ok ()) "2025-01-01" emptySchema

/-! ## Theorems about collection isolation -/

/-- The workflow with benign collaborators except that the github collector
raises. -/
def githubDownCollabs : Collabs :=
  { benignCollabs with githubC := .error (.httpError "connection refused") }

/-- C7 counterexample: when the github collector raises, its slot in the
collection result is the plain empty github payload, which carries no
"error" entry at all (only the news slot replacement is error-tagged), even
though the other two slots stay valid and the run still ends with overall
status "success". -/
theorem collect_failing_github_slot_not_error_tagged :
    pyGetD (collectAllData benignCollabs.newsC benignCollabs.startupC
        (.error (.httpError "connection refused"))) "github" (.pdict []) =
      .pdict [("trending", .plist []), ("signals", .plist [])] ∧
    pyHasKey (pyGetD (collectAllData benignCollabs.newsC benignCollabs.startupC
        (.error (.httpError "connection refused"))) "github" (.pdict [])) "error" =
      false ∧
    (∃ r, runFullWorkflow 7 githubDownCollabs = .ok r ∧
      pyGetD r "status" (.pstr "") = .pstr "success") := by
  refine ⟨rfl, rfl, ⟨_, rfl, rfl⟩⟩

/-- C7 (amended): with exactly one collector raising, the other two slots
carry the collector results unmodified and the run is not aborted; the
replacement for the failing slot is error-tagged for the news source, but
for the startup and github sources it is the plain empty payload without an
error tag. -/
theorem collectAll_per_slot_isolation (nv sv gv : PyVal) (e : PyErr) :
    (pyGetD (collectAllData (.error e) (.ok sv) (.ok gv)) "news" (.pdict []) =
        .pdict [("error", .pstr e.toStr), ("sources", .pdict []), ("total", .pint 0)] ∧
      pyHasKey (pyGetD (collectAllData (.error e) (.ok sv) (.ok gv)) "news" (.pdict []))
        "error" = true ∧
      pyGetD (collectAllData (.error e) (.ok sv) (.ok gv)) "startup" (.pdict []) = sv ∧
      pyGetD (collectAllData (.error e) (.ok sv) (.ok gv)) "github" (.pdict []) = gv) ∧
    (pyGetD (collectAllData (.ok nv) (.error e) (.ok gv)) "startup" (.pdict []) =
        .pdict [("funding", .plist []), ("launches", .plist [])] ∧
      pyHasKey (pyGetD (collectAllData (.ok nv) (.error e) (.ok gv)) "startup" (.pdict []))
        "error" = false ∧
      pyGetD (collectAllData (.ok nv) (.error e) (.ok gv)) "news" (.pdict []) = nv ∧
      pyGetD (collectAllData (.ok nv) (.error e) (.ok gv)) "github" (.pdict []) = gv) ∧
    (pyGetD (collectAllData (.ok nv) (.ok sv) (.error e)) "github" (.pdict []) =
        .pdict [("trending", .plist []), ("signals", .plist [])] ∧
      pyHasKey (pyGetD (collectAllData (.ok nv) (.ok sv) (.error e)) "github" (.pdict []))
        "error" = false ∧
      pyGetD (collectAllData (.ok nv) (.ok sv) (.error e)) "news" (.pdict []) = nv ∧
      pyGetD (collectAllData (.ok nv) (.ok sv) (.error e)) "startup" (.pdict []) = sv) :=
  ⟨⟨rfl, rfl, rfl, rfl⟩, ⟨rfl, rfl, rfl, rfl⟩, ⟨rfl, rfl, rfl, rfl⟩⟩

/-! ## Theorems about GetBriefing by date -/

/-- C10 counterexample: the date string of Arabic-Indic year digits is not
in YYYY-MM-DD format under the literal ASCII reading, yet strptime accepts
it (the \d of %Y matches any Unicode decimal digit), so the handler does
not reject it as InvalidArgument: it proceeds to the database query. -/
theorem briefing_unicode_digit_date_queries_db :
    strictAsciiYMD "٢٠٢٥-01-01".toList = false ∧
    strptimeYMD "٢٠٢٥-01-01".toList = some (2025, 1, 1) ∧
    get_briefing_by_date "٢٠٢٥-01-01" (fun _ => some (.pdict [])) =
      (⟨200, "briefing"⟩, true) := by
  refine ⟨by decide, by decide, ?_⟩
  simp [get_briefing_by_date]
  decide

/-- C10 (amended): for every date string rejected by the strptime %Y-%m-%d
validation the handler answers 400 (InvalidArgument) with the database
never queried; the accepted set, however, is wider than ASCII YYYY-MM-DD,
since %Y (and the second day digit after an ASCII 1 or 2) admits any
Unicode decimal digit, and such accepted non-ASCII dates reach the
database query. -/
theorem briefing_strptime_rejected_before_query
    (date : String) (dbLookup : String → Option PyVal)
    (h : strptimeYMD date.toList = none) :
    get_briefing_by_date date dbLookup =
      (⟨400, "Invalid date format. Use YYYY-MM-DD"⟩, false) := by
  have h' : strptimeYMD date.data = none := h
  simp [get_briefing_by_date, h']

/-- Witness for the amended C10 theorem on a malformed date string. -/
theorem briefing_strptime_rejected_before_query_witness :
    get_briefing_by_date "2025-13-0x" (fun _ => none) =
      (⟨400, "Invalid date format. Use YYYY-MM-DD"⟩, false) :=
  briefing_strptime_rejected_before_query "2025-13-0x" (fun _ => none) (by decide)

end StartupIntel
